import Mathlib

/-!
Verification of the playlist reconciliation logic of the `playsync` tool.

The Rust sources are embedded shallowly:
* `VideoInfo`, `Playlist`, `Config` mirror the structs in `youtube.rs` and
  `config.rs`.
* Remote access is modelled by oracles: `fetch : String → Except String (List
  VideoInfo)` stands for `YouTubeClient::get_playlist_items` (deterministic per
  playlist id, i.e. a snapshot of the remote state), and `add : Nat → String →
  String → Except String Unit` stands for `YouTubeClient::add_video_to_playlist`,
  indexed by the ordinal of the insertion call so that distinct attempts may
  have distinct outcomes.
* `sync_playlist` mirrors `sync::sync_playlist` and additionally records a
  trace (`SyncRun`): which playlists were fetched, the computed candidate list,
  the dry-run report, every insertion call, warnings and the final count, plus
  the `Result` value returned to the caller.
* `get_playlist_items_go` mirrors the pagination loop of
  `YouTubeClient::get_playlist_items` over a page oracle, with explicit fuel;
  `none` means the loop has not terminated within the given fuel.
* `Reachable` mirrors the configuration operations of `main::handle_config`
  together with `config::ask_for_sync_items`.
-/

namespace Playsync

/-- `VideoInfo` from `youtube.rs`: a video identifier and a display title. -/
structure VideoInfo where
  video_id : String
  title : String
deriving Repr, DecidableEq

/-- `Playlist` from `config.rs`: id, title, optional source-playlist ids. -/
structure Playlist where
  id : String
  title : String
  sync_from : Option (List String)
deriving Repr, DecidableEq

/-- `Config` from `config.rs`: OAuth path and the configured playlists. -/
structure Config where
  oauth2_json : Option String
  playlists : List Playlist
deriving Repr, DecidableEq

/-- `Config::default()`: empty playlist list, no OAuth path. -/
def Config.default : Config := ⟨none, []⟩

/-- `Config::add_playlist`: pushes the playlist at the end of the list. -/
def Config.add_playlist (cfg : Config) (p : Playlist) : Config :=
  ⟨cfg.oauth2_json, cfg.playlists ++ [p]⟩

/-- `Config::remove_playlist`: retains the playlists whose id differs. -/
def Config.remove_playlist (cfg : Config) (id : String) : Config :=
  ⟨cfg.oauth2_json, cfg.playlists.filter (fun p => p.id != id)⟩

/-- `Config::set_oauth_path`. -/
def Config.set_oauth_path (cfg : Config) (path : Option String) : Config :=
  ⟨path, cfg.playlists⟩

/-- Boolean test that an `Except` value is `ok` (Rust `Result::is_ok`). -/
def isOkB {ε α : Type} : Except ε α → Bool
  | .ok _ => true
  | .error _ => false

/-- The filter of `config::ask_for_sync_items` (config.rs lines 121-138):
a candidate source playlist is offered unless it is the playlist being
configured itself, or it already syncs from that playlist. -/
def syncSourceFilter (playlist_id : String) (p : Playlist) : Bool :=
  if p.id == playlist_id then false
  else
    match p.sync_from with
    | some sf => !sf.contains playlist_id
    | none => true

/-- The playlists offered by the multiselect of `ask_for_sync_items`. -/
def allowedSyncSources (cfg : Config) (playlist_id : String) : List Playlist :=
  cfg.playlists.filter (syncSourceFilter playlist_id)

/-- Configurations reachable through `handle_config` (main.rs): the initial
(default) configuration, reset, setting the OAuth path, adding a playlist
(whose `sync_from` is any user selection among the playlists offered by
`ask_for_sync_items`, stored as `none` when empty, main.rs lines 99-132),
and removing a playlist by id (main.rs lines 134-138). -/
inductive Reachable : Config → Prop
  | init : Reachable Config.default
  | reset (cfg : Config) : Reachable cfg → Reachable Config.default
  | set_oauth (cfg : Config) (path : Option String) :
      Reachable cfg → Reachable (cfg.set_oauth_path path)
  | add (cfg : Config) (id title : String) (selected : List String) :
      Reachable cfg → id ≠ "" →
      (∀ s ∈ selected, s ∈ (allowedSyncSources cfg id).map Playlist.id) →
      Reachable (cfg.add_playlist
        ⟨id, title, if selected.isEmpty then none else some selected⟩)
  | remove (cfg : Config) (id : String) :
      Reachable cfg → id ≠ "" → Reachable (cfg.remove_playlist id)

/-- The sync-from relation induced by a configuration on playlist ids:
`cfgEdge cfg x y` holds when some configured playlist with id `x` lists `y`
among its sources. -/
def cfgEdge (cfg : Config) (x y : String) : Bool :=
  cfg.playlists.any (fun p => p.id == x && (p.sync_from.getD []).contains y)

/-- The filter of the candidate-collection loop (sync.rs lines 30-34): keep
the source videos whose id is not in the destination id set. -/
def extractCandidates (target_video_ids : List String) (svs : List VideoInfo) :
    List VideoInfo :=
  svs.filter (fun v => !target_video_ids.contains v.video_id)

/-- The source loop of `sync_playlist` (sync.rs lines 27-35): fetch each
source in order, appending the videos missing from the destination set; a
fetch failure propagates (`?`). Also returns the list of source ids actually
fetched, in order, up to and including a failing one. -/
def collectCandidates (fetch : String → Except String (List VideoInfo))
    (target_video_ids : List String) :
    List String → List String × Except String (List VideoInfo)
  | [] => ([], Except.ok [])
  | sid :: rest =>
    match fetch sid with
    | .error e => ([sid], .error e)
    | .ok svs =>
      let r := collectCandidates fetch target_video_ids rest
      (sid :: r.1,
        match r.2 with
        | .error e => .error e
        | .ok cs => .ok (extractCandidates target_video_ids svs ++ cs))

/-- Trace of the insertion loop of `sync_playlist` (sync.rs lines 62-76):
the calls made to `add_video_to_playlist` in order, the running success
count, and the `(title, error)` warnings in order. -/
structure InsertReport where
  addCalls : List (String × String)
  addedCount : Nat
  warnings : List (String × String)
deriving Repr, DecidableEq

/-- The insertion loop (sync.rs lines 62-76): one `add_video_to_playlist`
call per candidate in order; on success the counter is incremented, on
failure a `(title, error)` warning is recorded and the loop continues.
`k` is the ordinal of the next insertion call, fed to the oracle. -/
def insertLoop (add : Nat → String → String → Except String Unit)
    (target_id : String) : Nat → List VideoInfo → InsertReport
  | _, [] => ⟨[], 0, []⟩
  | k, v :: rest =>
    let r := insertLoop add target_id (k + 1) rest
    match add k target_id v.video_id with
    | .ok _ => ⟨(target_id, v.video_id) :: r.addCalls, r.addedCount + 1, r.warnings⟩
    | .error e =>
        ⟨(target_id, v.video_id) :: r.addCalls, r.addedCount,
          (v.title, e) :: r.warnings⟩

/-- The observable outcome of one `sync_playlist` call: the playlists passed
to `get_playlist_items` in order, the candidate list (when all fetches
succeeded), the titles reported in the dry-run branch, the size announced
when the insertion batch starts, the insertion calls, the success count,
the warnings, the count in the final report, and the returned `Result`. -/
structure SyncRun where
  fetchCalls : List String
  candidates : Option (List VideoInfo)
  dryRunReport : Option (List String)
  addBatchSize : Option Nat
  addCalls : List (String × String)
  addedCount : Nat
  warnings : List (String × String)
  finalReport : Option Nat
  ret : Except String Unit
deriving Repr

/-- `sync::sync_playlist` (sync.rs lines 6-80). The destination snapshot is
fetched first and its id set built (the `HashSet` is modelled by the list of
ids with membership testing); then candidates are collected from the sources
in order; an empty candidate list returns at once; in dry-run mode the
candidate titles are reported and no insertion happens; otherwise the
insertion loop runs and the final success count is reported. -/
def sync_playlist (fetch : String → Except String (List VideoInfo))
    (add : Nat → String → String → Except String Unit)
    (target_playlist : Playlist) (source_playlist_ids : List String)
    (dry_run : Bool) : SyncRun :=
  match fetch target_playlist.id with
  | .error e => ⟨[target_playlist.id], none, none, none, [], 0, [], none, .error e⟩
  | .ok target_videos =>
    let target_video_ids := target_videos.map VideoInfo.video_id
    let r := collectCandidates fetch target_video_ids source_playlist_ids
    match r.2 with
    | .error e =>
        ⟨target_playlist.id :: r.1, none, none, none, [], 0, [], none, .error e⟩
    | .ok videos_to_add =>
      if videos_to_add.isEmpty then
        ⟨target_playlist.id :: r.1, some videos_to_add, none, none, [], 0, [],
          none, .ok ()⟩
      else if dry_run then
        ⟨target_playlist.id :: r.1, some videos_to_add,
          some (videos_to_add.map VideoInfo.title), none, [], 0, [], none, .ok ()⟩
      else
        let rep := insertLoop add target_playlist.id 0 videos_to_add
        ⟨target_playlist.id :: r.1, some videos_to_add, none,
          some videos_to_add.length, rep.addCalls, rep.addedCount, rep.warnings,
          some rep.addedCount, .ok ()⟩

/-- The playlist filter of `handle_sync` (main.rs lines 191-195). -/
def playlistsToSync (cfg : Config) (pid : Option String) : List Playlist :=
  match pid with
  | some id => cfg.playlists.filter (fun p => p.id == id)
  | none => cfg.playlists

/-- The multi-playlist loop of `handle_sync` (main.rs lines 207-211): each
playlist with a configured source list is synced in order, and `?` propagates
a failing sync, aborting the loop. Returns the ids of the playlists for which
`sync_playlist` was invoked, and the loop's `Result`. -/
def handleSyncLoop (fetch : String → Except String (List VideoInfo))
    (add : Nat → String → String → Except String Unit) (dry_run : Bool) :
    List Playlist → List String × Except String Unit
  | [] => ([], Except.ok ())
  | p :: rest =>
    match p.sync_from with
    | none => handleSyncLoop fetch add dry_run rest
    | some srcs =>
      match (sync_playlist fetch add p srcs dry_run).ret with
      | .error e => ([p.id], .error e)
      | .ok _ =>
        let r := handleSyncLoop fetch add dry_run rest
        (p.id :: r.1, r.2)

/-- The optional fields of a raw playlist item, as read by
`get_playlist_items` (youtube.rs lines 108-121): `snippet.title` and
`contentDetails.videoId` may each be absent. -/
structure RawSnippet where
  title : Option String
deriving Repr, DecidableEq

/-- `contentDetails` of a raw playlist item. -/
structure RawContentDetails where
  video_id : Option String
deriving Repr, DecidableEq

/-- A raw playlist item as returned by the platform: both parts optional. -/
structure RawItem where
  snippet : Option RawSnippet
  content_details : Option RawContentDetails
deriving Repr, DecidableEq

/-- One page of a `playlistItems.list` response: an optional item list and an
optional next-page token. -/
structure PageResponse where
  items : Option (List RawItem)
  next_page_token : Option String
deriving Repr, DecidableEq

/-- The per-item extraction of `get_playlist_items` (youtube.rs lines
109-120): an item is kept exactly when its snippet, its content details and
the video id are all present; a missing title becomes the empty string. -/
def extractItems (items : List RawItem) : List VideoInfo :=
  items.filterMap (fun item =>
    match item.snippet, item.content_details with
    | some sn, some cd =>
      match cd.video_id with
      | some vid => some ⟨vid, sn.title.getD ""⟩
      | none => none
    | _, _ => none)

/-- Whether a raw item has snippet, content details and video id present. -/
def rawComplete (item : RawItem) : Bool :=
  match item.snippet, item.content_details with
  | some _, some cd => cd.video_id.isSome
  | _, _ => false

/-- The `VideoInfo` built from a (complete) raw item. -/
def rawValue (item : RawItem) : VideoInfo :=
  ⟨(item.content_details.bind RawContentDetails.video_id).getD "",
    ((item.snippet.map RawSnippet.title).getD none).getD ""⟩

/-- The pagination loop of `get_playlist_items` (youtube.rs lines 94-127)
over a page oracle `doPage` (the `playlistItems.list` request for a given
page token; the playlist id is fixed). Explicit fuel bounds the number of
iterations: `none` means the loop did not terminate within the fuel; a page
fetch failure propagates (`?`); otherwise the kept items of each page are
accumulated in order until a response carries no next-page token. -/
def get_playlist_items_go (doPage : Option String → Except String PageResponse) :
    Nat → Option String → List VideoInfo → Option (Except String (List VideoInfo))
  | 0, _, _ => none
  | fuel + 1, tok, acc =>
    match doPage tok with
    | .error e => some (.error e)
    | .ok resp =>
      let acc2 := acc ++ extractItems (resp.items.getD [])
      match resp.next_page_token with
      | none => some (.ok acc2)
      | some t => get_playlist_items_go doPage fuel (some t) acc2

/-- The page oracle, starting from token `tok`, answers with the successive
pages `rs`, each linking to the next by its next-page token, the last one
carrying no next-page token. -/
inductive PageChain (doPage : Option String → Except String PageResponse) :
    Option String → List PageResponse → Prop
  | last (tok : Option String) (r : PageResponse) :
      doPage tok = .ok r → r.next_page_token = none → PageChain doPage tok [r]
  | step (tok : Option String) (r : PageResponse) (t : String)
      (rest : List PageResponse) :
      doPage tok = .ok r → r.next_page_token = some t →
      PageChain doPage (some t) rest → PageChain doPage tok (r :: rest)

/-- The page oracle, starting from token `tok`, answers `n` successful pages
each linking to the next, and then fails with error `e`. -/
inductive PageFails (doPage : Option String → Except String PageResponse) :
    Option String → String → Nat → Prop
  | here (tok : Option String) (e : String) :
      doPage tok = .error e → PageFails doPage tok e 0
  | step (tok : Option String) (r : PageResponse) (t : String) (e : String)
      (n : Nat) :
      doPage tok = .ok r → r.next_page_token = some t →
      PageFails doPage (some t) e n → PageFails doPage tok e (n + 1)

/-! ## Helper lemmas -/

/-- Videos kept by the candidate filter are absent from the destination ids. -/
theorem extractCandidates_not_mem (tids : List String) (svs : List VideoInfo)
    (v : VideoInfo) (hv : v ∈ extractCandidates tids svs) : v.video_id ∉ tids := by
  simp only [extractCandidates] at hv
  simpa using List.of_mem_filter hv

/-- Every video in a successfully collected candidate list is absent from the
destination id set. -/
theorem collectCandidates_ok_not_mem
    (fetch : String → Except String (List VideoInfo)) (tids : List String) :
    ∀ (l : List String) (cs : List VideoInfo),
      (collectCandidates fetch tids l).2 = .ok cs →
      ∀ v ∈ cs, v.video_id ∉ tids := by
  intro l
  induction l with
  | nil =>
    intro cs h v hv
    simp only [collectCandidates] at h
    cases h
    simp at hv
  | cons sid rest ih =>
    intro cs h v hv
    simp only [collectCandidates] at h
    cases hf : fetch sid with
    | error e => rw [hf] at h; simp at h
    | ok svs =>
      rw [hf] at h
      simp only at h
      cases hr : (collectCandidates fetch tids rest).2 with
      | error e => rw [hr] at h; simp at h
      | ok cs2 =>
        rw [hr] at h
        simp only [Except.ok.injEq] at h
        subst h
        rcases List.mem_append.mp hv with hv1 | hv2
        · exact extractCandidates_not_mem tids svs v hv1
        · exact ih cs2 hr v hv2

/-- With an everywhere-successful fetch, candidate collection succeeds and
returns the concatenation, in source order, of each source's videos filtered
against the destination id set. -/
theorem collectCandidates_total_ok (g : String → List VideoInfo)
    (tids : List String) :
    ∀ l : List String,
      (collectCandidates (fun s => .ok (g s)) tids l).2 =
        .ok (l.flatMap (fun sid => extractCandidates tids (g sid))) := by
  intro l
  induction l with
  | nil => rfl
  | cons sid rest ih => simp [collectCandidates, ih]

/-- If `sync_playlist` reports a candidate list, the destination fetch and
the whole candidate collection succeeded with exactly that list. -/
theorem sync_playlist_candidates_inv
    (fetch : String → Except String (List VideoInfo))
    (add : Nat → String → String → Except String Unit)
    (target : Playlist) (srcs : List String) (dry_run : Bool)
    (cs : List VideoInfo)
    (h : (sync_playlist fetch add target srcs dry_run).candidates = some cs) :
    ∃ tvs, fetch target.id = .ok tvs ∧
      (collectCandidates fetch (tvs.map VideoInfo.video_id) srcs).2 = .ok cs := by
  unfold sync_playlist at h
  cases hf : fetch target.id with
  | error e => rw [hf] at h; simp at h
  | ok tvs =>
    rw [hf] at h
    simp only at h
    refine ⟨tvs, rfl, ?_⟩
    cases hr : (collectCandidates fetch (tvs.map VideoInfo.video_id) srcs).2 with
    | error e => rw [hr] at h; simp at h
    | ok vs =>
      rw [hr] at h
      simp only at h
      by_cases hemp : vs.isEmpty = true
      · rw [if_pos hemp] at h
        simp only [Option.some.injEq] at h
        rw [h]
      · rw [if_neg hemp] at h
        by_cases hd : dry_run = true
        · rw [if_pos hd] at h
          simp only [Option.some.injEq] at h
          rw [h]
        · rw [if_neg hd] at h
          simp only [Option.some.injEq] at h
          rw [h]

/-! ## C1 -/

/-- C1: for every destination membership snapshot and every list of source
playlists, the candidate list computed by `sync_playlist` contains no video
whose identifier is present in the destination snapshot fetched at the start
of the call. -/
theorem candidates_exclude_destination
    (fetch : String → Except String (List VideoInfo))
    (add : Nat → String → String → Except String Unit)
    (target : Playlist) (srcs : List String) (dry_run : Bool)
    (tvs cs : List VideoInfo)
    (hf : fetch target.id = .ok tvs)
    (hc : (sync_playlist fetch add target srcs dry_run).candidates = some cs) :
    ∀ v ∈ cs, v.video_id ∉ tvs.map VideoInfo.video_id := by
  obtain ⟨tvs2, hf2, hcol⟩ :=
    sync_playlist_candidates_inv fetch add target srcs dry_run cs hc
  rw [hf] at hf2
  cases hf2
  exact collectCandidates_ok_not_mem fetch (tvs.map VideoInfo.video_id) srcs cs hcol

/-- Witness for C1 at a concrete input: destination holding `a`, one source
holding `a` and `b`; the single candidate `b` is not in the destination. -/
theorem candidates_exclude_destination_witness :
    (⟨"b", "tb"⟩ : VideoInfo).video_id ∉
      List.map VideoInfo.video_id [(⟨"a", "ta"⟩ : VideoInfo)] :=
  candidates_exclude_destination
    (fun s => if s == "dest" then .ok [⟨"a", "ta"⟩] else .ok [⟨"a", "ta"⟩, ⟨"b", "tb"⟩])
    (fun _ _ _ => .ok ()) ⟨"dest", "D", none⟩ ["s1"] false
    [⟨"a", "ta"⟩] [⟨"b", "tb"⟩] rfl rfl ⟨"b", "tb"⟩ (by simp)

/-! ## C2 -/

/-- C2: candidate collection performs no deduplication across source
playlists: with every fetch succeeding, the candidate list is exactly the
concatenation, in source order then fetch order, of each source's videos not
in the destination snapshot — one occurrence per occurrence in each source.
In particular (Scenario B), with an empty destination and sources `[v1]` and
`[v1, v2]`, the candidates are `[v1, v1, v2]`. -/
theorem no_cross_source_dedup :
    (∀ (g : String → List VideoInfo)
      (add : Nat → String → String → Except String Unit)
      (target : Playlist) (srcs : List String) (dry_run : Bool),
      (sync_playlist (fun s => .ok (g s)) add target srcs dry_run).candidates =
        some (srcs.flatMap (fun sid =>
          extractCandidates ((g target.id).map VideoInfo.video_id) (g sid)))) ∧
    (∀ (add : Nat → String → String → Except String Unit) (dry_run : Bool),
      (sync_playlist
        (fun s =>
          if s == "s1" then .ok [⟨"v1", "t1"⟩]
          else if s == "s2" then .ok [⟨"v1", "t1x"⟩, ⟨"v2", "t2"⟩]
          else .ok [])
        add ⟨"dest", "D", none⟩ ["s1", "s2"] dry_run).candidates =
        some [⟨"v1", "t1"⟩, ⟨"v1", "t1x"⟩, ⟨"v2", "t2"⟩]) := by
  constructor
  · intro g add target srcs dry_run
    unfold sync_playlist
    simp only [collectCandidates_total_ok]
    by_cases hemp :
        (srcs.flatMap (fun sid =>
          extractCandidates ((g target.id).map VideoInfo.video_id) (g sid))).isEmpty
    · rw [if_pos hemp]
    · rw [if_neg hemp]
      by_cases hd : dry_run
      · rw [if_pos hd]
      · rw [if_neg hd]
  · intro add dry_run
    cases dry_run <;> rfl

/-- The insertion loop makes exactly one call per candidate, in order,
whatever the outcomes. -/
theorem insertLoop_addCalls (add : Nat → String → String → Except String Unit)
    (tid : String) : ∀ (cs : List VideoInfo) (k : Nat),
    (insertLoop add tid k cs).addCalls = cs.map (fun v => (tid, v.video_id)) := by
  intro cs
  induction cs with
  | nil => intro k; rfl
  | cons v rest ih =>
    intro k
    cases ha : add k tid v.video_id with
    | ok u => simp [insertLoop, ha, ih]
    | error e => simp [insertLoop, ha, ih]

/-- The insertion loop records exactly the `(title, error)` of each failing
call, in order. -/
theorem insertLoop_warnings (add : Nat → String → String → Except String Unit)
    (tid : String) : ∀ (cs : List VideoInfo) (k : Nat),
    (insertLoop add tid k cs).warnings =
      (List.enumFrom k cs).filterMap (fun p =>
        match add p.1 tid p.2.video_id with
        | .ok _ => none
        | .error e => some (p.2.title, e)) := by
  intro cs
  induction cs with
  | nil => intro k; rfl
  | cons v rest ih =>
    intro k
    cases ha : add k tid v.video_id with
    | ok u => simp [insertLoop, List.enumFrom, ha, ih]
    | error e => simp [insertLoop, List.enumFrom, ha, ih]

/-- The insertion loop's success count is the number of successful calls. -/
theorem insertLoop_addedCount (add : Nat → String → String → Except String Unit)
    (tid : String) : ∀ (cs : List VideoInfo) (k : Nat),
    (insertLoop add tid k cs).addedCount =
      ((List.enumFrom k cs).filter
        (fun p => isOkB (add p.1 tid p.2.video_id))).length := by
  intro cs
  induction cs with
  | nil => intro k; rfl
  | cons v rest ih =>
    intro k
    cases ha : add k tid v.video_id with
    | ok u => simp [insertLoop, List.enumFrom, List.filter_cons, ha, ih, isOkB]
    | error e => simp [insertLoop, List.enumFrom, List.filter_cons, ha, ih, isOkB]

/-- When `sync_playlist` runs a non-empty candidate list without dry run,
its insertion-related fields are those of the insertion loop over that list,
the announced batch size is the candidate count, and the final report is the
loop's success count. -/
theorem sync_playlist_insert_fields
    (fetch : String → Except String (List VideoInfo))
    (add : Nat → String → String → Except String Unit)
    (target : Playlist) (srcs : List String) (cs : List VideoInfo)
    (hc : (sync_playlist fetch add target srcs false).candidates = some cs)
    (hne : cs ≠ []) :
    (sync_playlist fetch add target srcs false).addCalls =
        (insertLoop add target.id 0 cs).addCalls ∧
    (sync_playlist fetch add target srcs false).warnings =
        (insertLoop add target.id 0 cs).warnings ∧
    (sync_playlist fetch add target srcs false).addedCount =
        (insertLoop add target.id 0 cs).addedCount ∧
    (sync_playlist fetch add target srcs false).addBatchSize = some cs.length ∧
    (sync_playlist fetch add target srcs false).finalReport =
        some (insertLoop add target.id 0 cs).addedCount := by
  obtain ⟨tvs, hf, hcol⟩ :=
    sync_playlist_candidates_inv fetch add target srcs false cs hc
  have hne2 : cs.isEmpty = false := by
    cases cs with
    | nil => exact absurd rfl hne
    | cons a l => rfl
  unfold sync_playlist
  rw [hf]
  simp only
  rw [hcol]
  simp [hne2]

/-! ## C3 -/

/-- C3: with `dry_run = true`, `sync_playlist` makes no insertion call
whatever the candidate count, and when the run reports a (non-empty)
candidate list the dry-run report lists exactly the candidates' titles in
order. -/
theorem dry_run_never_inserts
    (fetch : String → Except String (List VideoInfo))
    (add : Nat → String → String → Except String Unit)
    (target : Playlist) (srcs : List String) (cs : List VideoInfo) :
    (sync_playlist fetch add target srcs true).addCalls = [] ∧
    ((sync_playlist fetch add target srcs true).candidates = some cs → cs ≠ [] →
      (sync_playlist fetch add target srcs true).dryRunReport =
        some (cs.map VideoInfo.title)) := by
  constructor
  · unfold sync_playlist
    cases hf : fetch target.id with
    | error e => rfl
    | ok tvs =>
      simp only
      cases hr : (collectCandidates fetch (tvs.map VideoInfo.video_id) srcs).2 with
      | error e => rfl
      | ok vs =>
        simp only
        by_cases hemp : vs.isEmpty = true
        · rw [if_pos hemp]
        · simp [hemp]
  · intro hc hne
    obtain ⟨tvs, hf, hcol⟩ :=
      sync_playlist_candidates_inv fetch add target srcs true cs hc
    have hne2 : cs.isEmpty = false := by
      cases cs with
      | nil => exact absurd rfl hne
      | cons a l => rfl
    unfold sync_playlist
    rw [hf]
    simp only
    rw [hcol]
    simp [hne2]

/-- Witness for C3 at a concrete input: empty destination, one source with
one video, dry run; no insertion call and the report lists its title. -/
theorem dry_run_never_inserts_witness :
    (sync_playlist
      (fun s => if s == "dest" then .ok [] else .ok [⟨"v1", "t1"⟩])
      (fun _ _ _ => .ok ()) ⟨"dest", "D", none⟩ ["s"] true).addCalls = [] ∧
    (sync_playlist
      (fun s => if s == "dest" then .ok [] else .ok [⟨"v1", "t1"⟩])
      (fun _ _ _ => .ok ()) ⟨"dest", "D", none⟩ ["s"] true).dryRunReport =
      some ["t1"] := by
  obtain ⟨h1, h2⟩ := dry_run_never_inserts
    (fun s => if s == "dest" then .ok [] else .ok [⟨"v1", "t1"⟩])
    (fun _ _ _ => .ok ()) ⟨"dest", "D", none⟩ ["s"] [⟨"v1", "t1"⟩]
  exact ⟨h1, (h2 rfl (List.cons_ne_nil _ _)).trans rfl⟩

/-! ## C4 -/

/-- C4: in a non-dry run, a failing insertion does not abort the batch: one
insertion call is made per candidate, in order, whatever the outcomes (so
every candidate after a failure is still attempted exactly once and no call
is retried); each failing candidate's title and error are recorded as a
warning; and the success count is the number of successful calls (successes
recorded before a failure are kept). -/
theorem insertion_failure_does_not_abort
    (fetch : String → Except String (List VideoInfo))
    (add : Nat → String → String → Except String Unit)
    (target : Playlist) (srcs : List String) (cs : List VideoInfo)
    (hc : (sync_playlist fetch add target srcs false).candidates = some cs)
    (hne : cs ≠ []) :
    (sync_playlist fetch add target srcs false).addCalls =
        cs.map (fun v => (target.id, v.video_id)) ∧
    (sync_playlist fetch add target srcs false).warnings =
        (List.enumFrom 0 cs).filterMap (fun p =>
          match add p.1 target.id p.2.video_id with
          | .ok _ => none
          | .error e => some (p.2.title, e)) ∧
    (sync_playlist fetch add target srcs false).addedCount =
        ((List.enumFrom 0 cs).filter
          (fun p => isOkB (add p.1 target.id p.2.video_id))).length := by
  obtain ⟨h1, h2, h3, _, _⟩ :=
    sync_playlist_insert_fields fetch add target srcs cs hc hne
  exact ⟨h1.trans (insertLoop_addCalls add target.id cs 0),
    h2.trans (insertLoop_warnings add target.id cs 0),
    h3.trans (insertLoop_addedCount add target.id cs 0)⟩

/-- Witness for C4 at a concrete input: candidates `v1, v2, v3`, the
insertion of `v2` fails; all three are attempted in order, the warning
records `v2`'s title and error, and two insertions succeed. -/
theorem insertion_failure_does_not_abort_witness :
    (sync_playlist
      (fun s => if s == "dest" then .ok []
        else .ok [⟨"v1", "t1"⟩, ⟨"v2", "t2"⟩, ⟨"v3", "t3"⟩])
      (fun _ _ vid => if vid == "v2" then .error "dup" else .ok ())
      ⟨"dest", "D", none⟩ ["s"] false).addCalls =
      [("dest", "v1"), ("dest", "v2"), ("dest", "v3")] ∧
    (sync_playlist
      (fun s => if s == "dest" then .ok []
        else .ok [⟨"v1", "t1"⟩, ⟨"v2", "t2"⟩, ⟨"v3", "t3"⟩])
      (fun _ _ vid => if vid == "v2" then .error "dup" else .ok ())
      ⟨"dest", "D", none⟩ ["s"] false).warnings = [("t2", "dup")] ∧
    (sync_playlist
      (fun s => if s == "dest" then .ok []
        else .ok [⟨"v1", "t1"⟩, ⟨"v2", "t2"⟩, ⟨"v3", "t3"⟩])
      (fun _ _ vid => if vid == "v2" then .error "dup" else .ok ())
      ⟨"dest", "D", none⟩ ["s"] false).addedCount = 2 := by
  obtain ⟨h1, h2, h3⟩ := insertion_failure_does_not_abort
    (fun s => if s == "dest" then .ok []
      else .ok [⟨"v1", "t1"⟩, ⟨"v2", "t2"⟩, ⟨"v3", "t3"⟩])
    (fun _ _ vid => if vid == "v2" then .error "dup" else .ok ())
    ⟨"dest", "D", none⟩ ["s"]
    [⟨"v1", "t1"⟩, ⟨"v2", "t2"⟩, ⟨"v3", "t3"⟩] rfl (List.cons_ne_nil _ _)
  exact ⟨h1.trans rfl, h2.trans rfl, h3.trans rfl⟩

/-! ## C5 -/

/-- C5: after the insertion loop of a non-dry run, the final report carries
the success count — the number of successful insertion calls — while the
batch announced `cs.length` attempts and exactly `cs.length` calls were
made. In particular (Scenario D), with candidates `[v1, v2]` where `v1`
fails and `v2` succeeds, the final report shows 1 success out of 2
attempted, with `v1`'s title recorded as a warning. -/
theorem final_report_success_count
    (fetch : String → Except String (List VideoInfo))
    (add : Nat → String → String → Except String Unit)
    (target : Playlist) (srcs : List String) (cs : List VideoInfo)
    (hc : (sync_playlist fetch add target srcs false).candidates = some cs)
    (hne : cs ≠ []) :
    ((sync_playlist fetch add target srcs false).finalReport =
        some (sync_playlist fetch add target srcs false).addedCount ∧
      (sync_playlist fetch add target srcs false).addBatchSize = some cs.length ∧
      (sync_playlist fetch add target srcs false).addCalls.length = cs.length ∧
      (sync_playlist fetch add target srcs false).addedCount =
        ((List.enumFrom 0 cs).filter
          (fun p => isOkB (add p.1 target.id p.2.video_id))).length) ∧
    ((sync_playlist
        (fun s => if s == "dest" then .ok [] else .ok [⟨"v1", "t1"⟩, ⟨"v2", "t2"⟩])
        (fun _ _ vid => if vid == "v1" then .error "quota" else .ok ())
        ⟨"dest", "D", none⟩ ["s"] false).finalReport = some 1 ∧
      (sync_playlist
        (fun s => if s == "dest" then .ok [] else .ok [⟨"v1", "t1"⟩, ⟨"v2", "t2"⟩])
        (fun _ _ vid => if vid == "v1" then .error "quota" else .ok ())
        ⟨"dest", "D", none⟩ ["s"] false).addBatchSize = some 2 ∧
      (sync_playlist
        (fun s => if s == "dest" then .ok [] else .ok [⟨"v1", "t1"⟩, ⟨"v2", "t2"⟩])
        (fun _ _ vid => if vid == "v1" then .error "quota" else .ok ())
        ⟨"dest", "D", none⟩ ["s"] false).warnings = [("t1", "quota")]) := by
  obtain ⟨h1, _, h3, h4, h5⟩ :=
    sync_playlist_insert_fields fetch add target srcs cs hc hne
  refine ⟨⟨h5.trans (by rw [h3]), h4, ?_, h3.trans (insertLoop_addedCount add target.id cs 0)⟩,
    rfl, rfl, rfl⟩
  rw [h1, insertLoop_addCalls add target.id cs 0, List.length_map]

/-- Witness for C5 at a concrete input: candidates `v1, v2` with `v1`
failing; the final report carries 1 success, the batch size is 2, two calls
were made, and the success count matches the successful calls. -/
theorem final_report_success_count_witness :
    (sync_playlist
      (fun s => if s == "d2" then .ok [] else .ok [⟨"w1", "u1"⟩, ⟨"w2", "u2"⟩])
      (fun _ _ vid => if vid == "w1" then .error "err" else .ok ())
      ⟨"d2", "D2", none⟩ ["s"] false).finalReport = some 1 ∧
    (sync_playlist
      (fun s => if s == "d2" then .ok [] else .ok [⟨"w1", "u1"⟩, ⟨"w2", "u2"⟩])
      (fun _ _ vid => if vid == "w1" then .error "err" else .ok ())
      ⟨"d2", "D2", none⟩ ["s"] false).addBatchSize = some 2 ∧
    (sync_playlist
      (fun s => if s == "d2" then .ok [] else .ok [⟨"w1", "u1"⟩, ⟨"w2", "u2"⟩])
      (fun _ _ vid => if vid == "w1" then .error "err" else .ok ())
      ⟨"d2", "D2", none⟩ ["s"] false).addCalls.length = 2 := by
  obtain ⟨⟨h1, h2, h3, h4⟩, _⟩ := final_report_success_count
    (fun s => if s == "d2" then .ok [] else .ok [⟨"w1", "u1"⟩, ⟨"w2", "u2"⟩])
    (fun _ _ vid => if vid == "w1" then .error "err" else .ok ())
    ⟨"d2", "D2", none⟩ ["s"] [⟨"w1", "u1"⟩, ⟨"w2", "u2"⟩] rfl (List.cons_ne_nil _ _)
  exact ⟨h1.trans (by rw [h4]; decide), h2, h3⟩

/-! ## C6 -/

/-- Counterexample for C6: two configured playlists; the first one's
destination fetch fails. The loop of `handle_sync` propagates the error and
stops: only the first playlist is processed, the second never is — although
the second is processed when synced on its own. -/
theorem sibling_abort_counterexample :
    (handleSyncLoop
      (fun s => if s == "d1" then .error "net" else .ok [])
      (fun _ _ _ => .ok ()) false
      [⟨"d1", "P1", some ["s1"]⟩, ⟨"d2", "P2", some ["s1"]⟩]).1 = ["d1"] ∧
    "d2" ∉ (handleSyncLoop
      (fun s => if s == "d1" then .error "net" else .ok [])
      (fun _ _ _ => .ok ()) false
      [⟨"d1", "P1", some ["s1"]⟩, ⟨"d2", "P2", some ["s1"]⟩]).1 ∧
    (handleSyncLoop
      (fun s => if s == "d1" then .error "net" else .ok [])
      (fun _ _ _ => .ok ()) false
      [⟨"d2", "P2", some ["s1"]⟩]).1 = ["d2"] ∧
    (handleSyncLoop
      (fun s => if s == "d1" then .error "net" else .ok [])
      (fun _ _ _ => .ok ()) false
      [⟨"d1", "P1", some ["s1"]⟩, ⟨"d2", "P2", some ["s1"]⟩]).2 =
      .error "net" := by
  refine ⟨rfl, ?_, rfl, rfl⟩
  decide

/-- C6 (amended): in the loop of `handle_sync`, a fatal error during one
playlist's reconciliation aborts the whole batch: the error propagates and
none of the remaining sibling playlists is processed. -/
theorem sync_error_aborts_siblings
    (fetch : String → Except String (List VideoInfo))
    (add : Nat → String → String → Except String Unit) (dry_run : Bool)
    (p : Playlist) (rest : List Playlist) (srcs : List String) (e : String)
    (hs : p.sync_from = some srcs)
    (he : (sync_playlist fetch add p srcs dry_run).ret = .error e) :
    handleSyncLoop fetch add dry_run (p :: rest) = ([p.id], .error e) := by
  simp [handleSyncLoop, hs, he]

/-- Witness for C6 (amended) at a concrete input: the first playlist's sync
fails, so the loop returns only it together with the propagated error. -/
theorem sync_error_aborts_siblings_witness :
    handleSyncLoop (fun _ => .error "boom") (fun _ _ _ => .ok ()) false
      [⟨"a", "A", some ["s"]⟩, ⟨"b", "B", some ["s"]⟩] = (["a"], .error "boom") :=
  sync_error_aborts_siblings (fun _ => .error "boom") (fun _ _ _ => .ok ()) false
    ⟨"a", "A", some ["s"]⟩ [⟨"b", "B", some ["s"]⟩] ["s"] "boom" rfl rfl

/-! ## C7 -/

/-- If every source before `sid` fetches successfully and `sid`'s fetch
fails, candidate collection propagates that error. -/
theorem collectCandidates_error_of_src
    (fetch : String → Except String (List VideoInfo)) (tids : List String)
    (e : String) :
    ∀ (pre : List String) (sid : String) (post : List String),
      (∀ s ∈ pre, isOkB (fetch s) = true) → fetch sid = .error e →
      (collectCandidates fetch tids (pre ++ sid :: post)).2 = .error e := by
  intro pre
  induction pre with
  | nil =>
    intro sid post _ hsid
    simp only [List.nil_append, collectCandidates]
    rw [hsid]
  | cons s pre ih =>
    intro sid post hpre hsid
    have hs : isOkB (fetch s) = true := hpre s (List.mem_cons_self s pre)
    cases hfs : fetch s with
    | error e2 => rw [hfs] at hs; simp [isOkB] at hs
    | ok svs =>
      simp only [List.cons_append, collectCandidates]
      rw [hfs]
      simp only [List.append_eq]
      rw [ih sid post (fun x hx => hpre x (List.mem_cons_of_mem s hx)) hsid]

/-- C7: any failure fetching the destination's or a source's members is
fatal to the `sync_playlist` call: the error is propagated as the call's
result and no insertion call is made in that run (on a destination-fetch
failure no source is fetched either). -/
theorem fetch_failure_fatal
    (fetch : String → Except String (List VideoInfo))
    (add : Nat → String → String → Except String Unit)
    (target : Playlist) (srcs : List String) (dry_run : Bool) (e : String) :
    (fetch target.id = .error e →
      (sync_playlist fetch add target srcs dry_run).ret = .error e ∧
      (sync_playlist fetch add target srcs dry_run).addCalls = [] ∧
      (sync_playlist fetch add target srcs dry_run).fetchCalls = [target.id]) ∧
    (∀ (tvs : List VideoInfo) (pre : List String) (sid : String)
      (post : List String),
      fetch target.id = .ok tvs → srcs = pre ++ sid :: post →
      (∀ s ∈ pre, isOkB (fetch s) = true) → fetch sid = .error e →
      (sync_playlist fetch add target srcs dry_run).ret = .error e ∧
      (sync_playlist fetch add target srcs dry_run).addCalls = []) := by
  constructor
  · intro hf
    unfold sync_playlist
    rw [hf]
    exact ⟨rfl, rfl, rfl⟩
  · intro tvs pre sid post hf hsrc hpre hsid
    have hcol := collectCandidates_error_of_src fetch
      (tvs.map VideoInfo.video_id) e pre sid post hpre hsid
    unfold sync_playlist
    rw [hf]
    simp only
    rw [hsrc, hcol]
    exact ⟨rfl, rfl⟩

/-- Witness for C7 at concrete inputs: a failing destination fetch, and a
failing second-source fetch with a successful first source; both propagate
the error and make no insertion call. -/
theorem fetch_failure_fatal_witness :
    ((sync_playlist (fun _ => .error "down") (fun _ _ _ => .ok ())
        ⟨"dst", "D", none⟩ ["s1"] false).ret = .error "down" ∧
      (sync_playlist (fun _ => .error "down") (fun _ _ _ => .ok ())
        ⟨"dst", "D", none⟩ ["s1"] false).addCalls = [] ∧
      (sync_playlist (fun _ => .error "down") (fun _ _ _ => .ok ())
        ⟨"dst", "D", none⟩ ["s1"] false).fetchCalls = ["dst"]) ∧
    ((sync_playlist (fun s => if s == "sB" then .error "gone" else .ok [])
        (fun _ _ _ => .ok ()) ⟨"dst2", "D2", none⟩ ["sA", "sB"] false).ret =
        .error "gone" ∧
      (sync_playlist (fun s => if s == "sB" then .error "gone" else .ok [])
        (fun _ _ _ => .ok ()) ⟨"dst2", "D2", none⟩ ["sA", "sB"] false).addCalls =
        []) := by
  constructor
  · exact (fetch_failure_fatal (fun _ => .error "down") (fun _ _ _ => .ok ())
      ⟨"dst", "D", none⟩ ["s1"] false "down").1 rfl
  · exact (fetch_failure_fatal (fun s => if s == "sB" then .error "gone" else .ok [])
      (fun _ _ _ => .ok ()) ⟨"dst2", "D2", none⟩ ["sA", "sB"] false "gone").2
      [] ["sA"] "sB" [] rfl rfl (by decide) rfl

/-! ## C8 -/

/-- Along a successful page chain, the pagination loop with fuel equal to
the page count terminates and appends every page's kept items, in order,
after the accumulator. -/
theorem get_playlist_items_go_chain
    (doPage : Option String → Except String PageResponse)
    (tok : Option String) (rs : List PageResponse)
    (h : PageChain doPage tok rs) :
    ∀ acc : List VideoInfo,
      get_playlist_items_go doPage rs.length tok acc =
        some (.ok (acc ++ rs.flatMap (fun r => extractItems (r.items.getD [])))) := by
  induction h with
  | last tok r hdo hnext =>
    intro acc
    simp [get_playlist_items_go, hdo, hnext]
  | step tok r t rest hdo hnext hchain ih =>
    intro acc
    simp [get_playlist_items_go, hdo, hnext, ih]

/-- One iteration of the pagination loop, unfolded. -/
theorem get_playlist_items_go_succ
    (doPage : Option String → Except String PageResponse) (fuel : Nat)
    (tok : Option String) (acc : List VideoInfo) :
    get_playlist_items_go doPage (fuel + 1) tok acc =
      match doPage tok with
      | .error e => some (.error e)
      | .ok resp =>
        match resp.next_page_token with
        | none => some (.ok (acc ++ extractItems (resp.items.getD [])))
        | some t => get_playlist_items_go doPage fuel (some t)
            (acc ++ extractItems (resp.items.getD [])) := rfl

/-- A page fetch failure after `n` successful pages aborts the pagination
loop with the propagated error, whatever was already accumulated. -/
theorem get_playlist_items_go_fails
    (doPage : Option String → Except String PageResponse)
    (tok : Option String) (e : String) (n : Nat)
    (h : PageFails doPage tok e n) :
    ∀ acc : List VideoInfo,
      get_playlist_items_go doPage (n + 1) tok acc = some (.error e) := by
  induction h with
  | here tok e hdo =>
    intro acc
    simp [get_playlist_items_go, hdo]
  | step tok r t e n hdo hnext hfail ih =>
    intro acc
    rw [get_playlist_items_go_succ, hdo]
    simp only
    rw [hnext]
    exact ih _

/-- C8: `get_playlist_items` follows the page-token protocol: when the
remote answers a finite chain of pages whose last response carries no
next-page token, the loop terminates (with fuel equal to the page count)
and returns the order-preserving concatenation of the kept members of every
fetched page; when any page fetch fails, the whole call aborts with the
propagated error and no partial list is returned. -/
theorem pagination_follows_protocol
    (doPage : Option String → Except String PageResponse) :
    (∀ rs : List PageResponse, PageChain doPage none rs →
      get_playlist_items_go doPage rs.length none [] =
        some (.ok (rs.flatMap (fun r => extractItems (r.items.getD []))))) ∧
    (∀ (e : String) (n : Nat), PageFails doPage none e n →
      get_playlist_items_go doPage (n + 1) none [] = some (.error e)) := by
  constructor
  · intro rs h
    simpa using get_playlist_items_go_chain doPage none rs h []
  · intro e n h
    exact get_playlist_items_go_fails doPage none e n h []

/-- Witness for C8 at concrete inputs: a two-page chain is concatenated in
order, and a remote failing on the second page propagates the error. -/
theorem pagination_follows_protocol_witness :
    get_playlist_items_go
      (fun tok => match tok with
        | none => .ok ⟨some [⟨some ⟨some "t1"⟩, some ⟨some "a"⟩⟩], some "p2"⟩
        | some t =>
            if t == "p2"
            then .ok ⟨some [⟨some ⟨some "t2"⟩, some ⟨some "b"⟩⟩], none⟩
            else .error "bad")
      2 none [] = some (.ok [⟨"a", "t1"⟩, ⟨"b", "t2"⟩]) ∧
    get_playlist_items_go
      (fun tok => match tok with
        | none => .ok ⟨some [], some "p2"⟩
        | some _ => .error "net")
      2 none [] = some (.error "net") := by
  constructor
  · have hchain : PageChain
        (fun tok => match tok with
          | none => .ok ⟨some [⟨some ⟨some "t1"⟩, some ⟨some "a"⟩⟩], some "p2"⟩
          | some t =>
              if t == "p2"
              then .ok ⟨some [⟨some ⟨some "t2"⟩, some ⟨some "b"⟩⟩], none⟩
              else .error "bad")
        none
        [⟨some [⟨some ⟨some "t1"⟩, some ⟨some "a"⟩⟩], some "p2"⟩,
          ⟨some [⟨some ⟨some "t2"⟩, some ⟨some "b"⟩⟩], none⟩] :=
      PageChain.step none _ "p2" _ rfl rfl (PageChain.last (some "p2") _ rfl rfl)
    exact ((pagination_follows_protocol _).1 _ hchain).trans rfl
  · have hfail : PageFails
        (fun tok => match tok with
          | none => .ok ⟨some [], some "p2"⟩
          | some _ => .error "net")
        none "net" 1 :=
      PageFails.step none _ "p2" "net" 0 rfl rfl (PageFails.here (some "p2") "net" rfl)
    exact (pagination_follows_protocol _).2 "net" 1 hfail

/-! ## C10 -/

/-- One step of the per-item extraction: an item contributes its value when
complete and is dropped otherwise. -/
theorem extractItems_cons (it : RawItem) (rest : List RawItem) :
    extractItems (it :: rest) =
      (if rawComplete it then [rawValue it] else []) ++ extractItems rest := by
  rcases it with ⟨sn, cd⟩
  cases sn with
  | none =>
    cases cd with
    | none => rfl
    | some c => rfl
  | some s =>
    cases cd with
    | none => rfl
    | some c =>
      rcases c with ⟨cv⟩
      cases cv with
      | none => rfl
      | some vid => rfl

/-- C10: `get_playlist_items` silently omits every returned item whose
snippet, content details or video id is missing: the extracted list is
exactly the complete items, in order, with a missing title replaced by the
empty string — so the resulting member list can be strictly shorter than
the item list reported by the platform. -/
theorem incomplete_items_silently_dropped :
    (∀ items : List RawItem,
      extractItems items = (items.filter rawComplete).map rawValue) ∧
    extractItems [⟨none, some ⟨some "v"⟩⟩] = [] ∧
    extractItems [⟨some ⟨some "t"⟩, none⟩] = [] ∧
    extractItems [⟨some ⟨some "t"⟩, some ⟨none⟩⟩] = [] ∧
    extractItems [⟨some ⟨none⟩, some ⟨some "v"⟩⟩] = [⟨"v", ""⟩] ∧
    (extractItems [⟨none, some ⟨some "v"⟩⟩]).length <
      ([⟨none, some ⟨some "v"⟩⟩] : List RawItem).length := by
  refine ⟨?_, rfl, rfl, rfl, rfl, by decide⟩
  intro items
  induction items with
  | nil => rfl
  | cons it rest ih =>
    rw [extractItems_cons, ih, List.filter_cons]
    by_cases hcomp : rawComplete it
    · simp [hcomp]
    · simp [hcomp]

/-! ## C9 -/

/-- C9 (amended): every configuration reachable through the program's
configuration operations satisfies the self-reference half of the
invariant: no playlist's source list contains that playlist's own
identifier. (The cycle half fails; see the counterexample.) -/
theorem reachable_no_self_source (cfg : Config) (h : Reachable cfg) :
    ∀ p ∈ cfg.playlists, ∀ sf, p.sync_from = some sf → p.id ∉ sf := by
  induction h with
  | init =>
    intro p hp
    simp [Config.default] at hp
  | reset cfg h ih =>
    intro p hp
    simp [Config.default] at hp
  | set_oauth cfg path h ih =>
    intro p hp sf hsf
    exact ih p hp sf hsf
  | add cfg id title selected h hid hsel ih =>
    intro p hp sf hsf
    simp only [Config.add_playlist] at hp
    rcases List.mem_append.mp hp with hp1 | hp2
    · exact ih p hp1 sf hsf
    · rcases List.mem_singleton.mp hp2 with rfl
      by_cases hemp : selected.isEmpty = true
      · simp [hemp] at hsf
      · simp [hemp] at hsf
        subst hsf
        intro hmem
        have hin := hsel id (by simpa using hmem)
        simp only [allowedSyncSources] at hin
        obtain ⟨q, hq, hqid⟩ := List.mem_map.mp hin
        have hfilt := List.of_mem_filter hq
        simp [syncSourceFilter, hqid] at hfilt
  | remove cfg id h hid ih =>
    intro p hp sf hsf
    exact ih p (List.mem_of_mem_filter hp) sf hsf

/-- Witness for C9 (amended) at a concrete reachable configuration: after
adding `Y` and then `X` syncing from `Y`, the playlist `X` does not list its
own identifier among its sources. -/
theorem reachable_no_self_source_witness :
    (⟨"X", "X", some ["Y"]⟩ : Playlist).id ∉ ["Y"] :=
  reachable_no_self_source ⟨none, [⟨"Y", "Y", none⟩, ⟨"X", "X", some ["Y"]⟩]⟩
    (Reachable.add ⟨none, [⟨"Y", "Y", none⟩]⟩ "X" "X" ["Y"]
      (Reachable.add Config.default "Y" "Y" [] Reachable.init
        (by decide) (by decide))
      (by decide) (by decide))
    ⟨"X", "X", some ["Y"]⟩ (by simp) ["Y"] rfl

/-- Counterexample for C9: a configuration with a genuine cycle among three
configured playlists with pairwise-distinct identifiers (A syncs from C, C
from B, B from A) is reachable: add A, add B syncing from A, add C syncing
from B, remove A, then re-add A syncing from C. The selection filter of
`ask_for_sync_items` only excludes the playlist itself and direct
back-references among the playlists present at selection time, so the
configuration-time invariant does not rule out cycles. -/
theorem config_cycle_reachable_counterexample :
    Reachable ⟨none, [⟨"B", "B", some ["A"]⟩, ⟨"C", "C", some ["B"]⟩,
      ⟨"A", "A2", some ["C"]⟩]⟩ ∧
    cfgEdge ⟨none, [⟨"B", "B", some ["A"]⟩, ⟨"C", "C", some ["B"]⟩,
      ⟨"A", "A2", some ["C"]⟩]⟩ "A" "C" = true ∧
    cfgEdge ⟨none, [⟨"B", "B", some ["A"]⟩, ⟨"C", "C", some ["B"]⟩,
      ⟨"A", "A2", some ["C"]⟩]⟩ "C" "B" = true ∧
    cfgEdge ⟨none, [⟨"B", "B", some ["A"]⟩, ⟨"C", "C", some ["B"]⟩,
      ⟨"A", "A2", some ["C"]⟩]⟩ "B" "A" = true ∧
    (List.map Playlist.id [⟨"B", "B", some ["A"]⟩, ⟨"C", "C", some ["B"]⟩,
      ⟨"A", "A2", some ["C"]⟩]).Nodup := by
  refine ⟨?_, rfl, rfl, rfl, by decide⟩
  have h1 : Reachable ⟨none, [⟨"A", "A", none⟩]⟩ :=
    Reachable.add Config.default "A" "A" [] Reachable.init
      (by decide) (by decide)
  have h2 : Reachable ⟨none, [⟨"A", "A", none⟩, ⟨"B", "B", some ["A"]⟩]⟩ :=
    Reachable.add ⟨none, [⟨"A", "A", none⟩]⟩ "B" "B" ["A"] h1
      (by decide) (by decide)
  have h3 : Reachable ⟨none, [⟨"A", "A", none⟩, ⟨"B", "B", some ["A"]⟩,
      ⟨"C", "C", some ["B"]⟩]⟩ :=
    Reachable.add ⟨none, [⟨"A", "A", none⟩, ⟨"B", "B", some ["A"]⟩]⟩
      "C" "C" ["B"] h2 (by decide) (by decide)
  have h4 : Reachable ⟨none, [⟨"B", "B", some ["A"]⟩, ⟨"C", "C", some ["B"]⟩]⟩ :=
    Reachable.remove ⟨none, [⟨"A", "A", none⟩, ⟨"B", "B", some ["A"]⟩,
      ⟨"C", "C", some ["B"]⟩]⟩ "A" h3 (by decide)
  exact Reachable.add ⟨none, [⟨"B", "B", some ["A"]⟩, ⟨"C", "C", some ["B"]⟩]⟩
    "A" "A2" ["C"] h4 (by decide) (by decide)

end Playsync
